import Mathlib

/-!
Shallow embedding of the SentinelStream risk-scoring engine
(`fraud_detection.py`, class `FraudDetector`).

Modelling choices:
* money amounts and thresholds are rationals (`ℚ`); Python numbers in the
  engine are only compared and added, never divided;
* timestamps are integers counting seconds, so `datetime.now() - timedelta(hours=1)`
  becomes `now - 3600`; the current time `now` is passed explicitly, reflecting
  that the clock is injected at call time;
* the loaded configuration is a Python dict, so every top-level key may be
  missing: fields are `Option`s, subscript access (`config["k"]`) raises
  `KeyError` (modelled as `Except.error`), and `config.get(k, d)` is `Option.getD`;
* reason strings are modelled as an inductive type carrying the interpolated
  values of the corresponding f-strings;
* Python truthiness of the optional history list (`if transaction_history:`)
  is modelled by `historyTruthy`: both `None` and `[]` are falsy.
-/

namespace SentinelStream

/-- One element of the caller-supplied transaction history:
a dict `{'amount': float, 'timestamp': datetime}`. -/
structure HistoryEntry where
  amount : ℚ
  timestamp : Int
  deriving DecidableEq, Repr

/-- The four categorical risk levels produced by `evaluate_risk`. -/
inductive RiskLevel where
  | LOW
  | MEDIUM
  | HIGH
  | CRITICAL
  deriving DecidableEq, Repr

/-- Reason strings appended by the rules, as an inductive type carrying the
values interpolated into the Python f-strings. -/
inductive Reason where
  | amountGt (threshold : ℚ)
  | highRiskLocation (loc : String)
  | riskyMerchant (m : String)
  | velocityCount (maxTxns : Int)
  | velocityAmount (maxAmount : ℚ)
  deriving DecidableEq, Repr

/-- The dict returned by `evaluate_risk`. -/
structure Assessment where
  risk_score : Int
  risk_level : RiskLevel
  reasons : List Reason
  deriving DecidableEq, Repr

/-- The `amount_thresholds` table of the configuration. -/
structure AmountThresholds where
  low : ℚ
  medium : ℚ
  high : ℚ
  deriving DecidableEq, Repr

/-- The `velocity_rules` table of the configuration. -/
structure VelocityRules where
  max_transactions_per_hour : Int
  max_amount_per_hour : ℚ
  deriving DecidableEq, Repr

/-- The `risk_weights` table. Every key may be absent; the engine reads each
one with `weights.get(key, default)`. -/
structure RiskWeights where
  amount_high : Option Int
  amount_medium : Option Int
  amount_low : Option Int
  location : Option Int
  merchant : Option Int
  velocity_count : Option Int
  velocity_amount : Option Int
  deriving DecidableEq, Repr

/-- The empty weights dict, produced by `config.get("risk_weights", {})`
when the key is absent. -/
def RiskWeights.empty : RiskWeights :=
  ⟨none, none, none, none, none, none, none⟩

/-- A parsed configuration dict. JSON parsing imposes no structure, so every
top-level key may be missing; subscript access on a missing key raises. -/
structure RawConfig where
  high_risk_locations : Option (List String)
  risky_merchants : Option (List String)
  amount_thresholds : Option AmountThresholds
  velocity_rules : Option VelocityRules
  risk_weights : Option RiskWeights
  deriving DecidableEq, Repr

/-- The config dict with no keys at all (parsed from the JSON document `{}`). -/
def RawConfig.empty : RawConfig :=
  ⟨none, none, none, none, none⟩

/-- The built-in fallback configuration returned by `_load_config` when the
config file does not exist. -/
def defaultConfig : RawConfig where
  high_risk_locations := some ["HighRiskCountry", "Unknown"]
  risky_merchants := some ["GamblingSite", "CryptoExchange"]
  amount_thresholds := some ⟨1000, 5000, 10000⟩
  velocity_rules := some ⟨3, 20000⟩
  risk_weights := some ⟨some 50, some 30, some 10, some 40, some 30, some 60, some 50⟩

/-- The state of the config source seen by `_load_config`: the file is absent,
or present but not valid JSON (`json.load` raises), or present and parsed
into a (possibly incomplete) dict. -/
inductive ConfigSource where
  | absent
  | unparseable
  | parsed (c : RawConfig)
  deriving DecidableEq, Repr

/-- The only construction-time failure: `json.load` raising on a present file. -/
inductive ConfigError where
  | jsonDecodeError
  deriving DecidableEq, Repr

/-- Embeds `FraudDetector._load_config`: a missing file yields the built-in
defaults; a present file is handed to `json.load`, which raises on non-JSON
input and otherwise returns the parsed dict unvalidated. -/
def loadConfig : ConfigSource → Except ConfigError RawConfig
  | ConfigSource.absent => Except.ok defaultConfig
  | ConfigSource.unparseable => Except.error ConfigError.jsonDecodeError
  | ConfigSource.parsed c => Except.ok c

/-- Runtime errors of `evaluate_risk`: a `KeyError` from subscripting the
config dict with a missing key. -/
inductive EvalError where
  | keyError (key : String)
  deriving DecidableEq, Repr

/-- Level derivation from the capped score (`evaluate_risk`, final `if` chain). -/
def riskLevelOf (risk_score : Int) : RiskLevel :=
  if risk_score ≥ 80 then RiskLevel.CRITICAL
  else if risk_score ≥ 50 then RiskLevel.HIGH
  else if risk_score ≥ 20 then RiskLevel.MEDIUM
  else RiskLevel.LOW

/-- Step 1 of `evaluate_risk`: the amount-tier `if/elif` chain. Returns the
score increment and the appended reasons. -/
def amountCheck (thresholds : AmountThresholds) (weights : RiskWeights) (amount : ℚ) :
    Int × List Reason :=
  if amount > thresholds.high then
    (weights.amount_high.getD 50, [Reason.amountGt thresholds.high])
  else if amount > thresholds.medium then
    (weights.amount_medium.getD 30, [Reason.amountGt thresholds.medium])
  else if amount > thresholds.low then
    (weights.amount_low.getD 10, [Reason.amountGt thresholds.low])
  else
    (0, [])

/-- Step 2 of `evaluate_risk`: the location membership check. -/
def locationCheck (high_risk_locations : List String) (weights : RiskWeights)
    (loc : String) : Int × List Reason :=
  if loc ∈ high_risk_locations then
    (weights.location.getD 40, [Reason.highRiskLocation loc])
  else
    (0, [])

/-- Step 3 of `evaluate_risk`: the merchant membership check. -/
def merchantCheck (risky_merchants : List String) (weights : RiskWeights)
    (m : String) : Int × List Reason :=
  if m ∈ risky_merchants then
    (weights.merchant.getD 30, [Reason.riskyMerchant m])
  else
    (0, [])

/-- The filter in `_check_velocity`: entries strictly after `now` minus one hour. -/
def recentTxns (now : Int) (history : List HistoryEntry) : List HistoryEntry :=
  history.filter (fun t => decide (t.timestamp > now - 3600))

/-- The two velocity checks of `_check_velocity`, after the config lookups:
the count check over the recent entries and the cumulative-amount check that
adds the current amount to the recent total. -/
def velocityChecks (rules : VelocityRules) (weights : RiskWeights) (current_amount : ℚ)
    (history : List HistoryEntry) (now : Int) : Int × List Reason :=
  let recent_txns := recentTxns now history
  let countPart : Int × List Reason :=
    if (recent_txns.length : Int) ≥ rules.max_transactions_per_hour then
      (weights.velocity_count.getD 60, [Reason.velocityCount rules.max_transactions_per_hour])
    else
      (0, [])
  let total_recent_amount := (recent_txns.map HistoryEntry.amount).sum + current_amount
  let amountPart : Int × List Reason :=
    if total_recent_amount > rules.max_amount_per_hour then
      (weights.velocity_amount.getD 50, [Reason.velocityAmount rules.max_amount_per_hour])
    else
      (0, [])
  (countPart.1 + amountPart.1, countPart.2 ++ amountPart.2)

/-- Embeds `FraudDetector._check_velocity`: subscripts `config["velocity_rules"]`
(raising `KeyError` when absent), reads the weights with defaults, and runs
the two checks. -/
def checkVelocity (config : RawConfig) (current_amount : ℚ)
    (history : List HistoryEntry) (now : Int) : Except EvalError (Int × List Reason) :=
  match config.velocity_rules with
  | none => Except.error (EvalError.keyError "velocity_rules")
  | some rules =>
      Except.ok (velocityChecks rules (config.risk_weights.getD RiskWeights.empty)
        current_amount history now)

/-- Python truthiness of the optional history argument: `if transaction_history:`
is false both for `None` and for the empty list. -/
def historyTruthy : Option (List HistoryEntry) → Bool
  | none => false
  | some h => !h.isEmpty

/-- Embeds `FraudDetector.evaluate_risk`. Config keys are subscripted in source
order (`amount_thresholds`, `high_risk_locations`, `risky_merchants`), the four
rule groups add to a running score and append reasons in order, the score is
capped at 100 at the end, and the level is derived from the capped score. -/
def evaluateRisk (config : RawConfig) (amount : ℚ) (loc merchant : String)
    (transaction_history : Option (List HistoryEntry)) (now : Int) :
    Except EvalError Assessment :=
  let weights := config.risk_weights.getD RiskWeights.empty
  match config.amount_thresholds with
  | none => Except.error (EvalError.keyError "amount_thresholds")
  | some thresholds =>
      let p1 := amountCheck thresholds weights amount
      match config.high_risk_locations with
      | none => Except.error (EvalError.keyError "high_risk_locations")
      | some high_risk_locations =>
          let p2 := locationCheck high_risk_locations weights loc
          match config.risky_merchants with
          | none => Except.error (EvalError.keyError "risky_merchants")
          | some risky_merchants =>
              let p3 := merchantCheck risky_merchants weights merchant
              let velocityResult : Except EvalError (Int × List Reason) :=
                if historyTruthy transaction_history then
                  checkVelocity config amount (transaction_history.getD []) now
                else
                  Except.ok (0, [])
              match velocityResult with
              | Except.error e => Except.error e
              | Except.ok p4 =>
                  let risk_score := min (p1.1 + p2.1 + p3.1 + p4.1) 100
                  Except.ok
                    { risk_score := risk_score
                      risk_level := riskLevelOf risk_score
                      reasons := p1.2 ++ p2.2 ++ p3.2 ++ p4.2 }

/-- The velocity contribution of a call to `evaluate_risk` on a complete
config: zero when the history argument is falsy, otherwise the result of the
two velocity checks. -/
def velocityPart (vr : VelocityRules) (w : RiskWeights) (amount : ℚ)
    (hist : Option (List HistoryEntry)) (now : Int) : Int × List Reason :=
  if historyTruthy hist then velocityChecks vr w amount (hist.getD []) now else (0, [])

/-- The running score of `evaluate_risk` before the final cap, on a complete
config. -/
def uncappedTotal (th : AmountThresholds) (locs merchs : List String) (vr : VelocityRules)
    (w : RiskWeights) (amount : ℚ) (loc merchant : String)
    (hist : Option (List HistoryEntry)) (now : Int) : Int :=
  (amountCheck th w amount).1 + (locationCheck locs w loc).1 +
    (merchantCheck merchs w merchant).1 + (velocityPart vr w amount hist now).1

/-- The reason list of `evaluate_risk`, on a complete config: rule order is
amount, location, merchant, velocity, and the cap never touches it. -/
def allReasons (th : AmountThresholds) (locs merchs : List String) (vr : VelocityRules)
    (w : RiskWeights) (amount : ℚ) (loc merchant : String)
    (hist : Option (List HistoryEntry)) (now : Int) : List Reason :=
  (amountCheck th w amount).2 ++ (locationCheck locs w loc).2 ++
    (merchantCheck merchs w merchant).2 ++ (velocityPart vr w amount hist now).2

theorem evaluateRisk_ok (config : RawConfig) (th : AmountThresholds)
    (locs merchs : List String) (vr : VelocityRules) (amount : ℚ) (loc merchant : String)
    (hist : Option (List HistoryEntry)) (now : Int)
    (hth : config.amount_thresholds = some th)
    (hlocs : config.high_risk_locations = some locs)
    (hmerchs : config.risky_merchants = some merchs)
    (hvr : config.velocity_rules = some vr) :
    evaluateRisk config amount loc merchant hist now =
      Except.ok
        { risk_score := min (uncappedTotal th locs merchs vr
            (config.risk_weights.getD RiskWeights.empty) amount loc merchant hist now) 100
          risk_level := riskLevelOf (min (uncappedTotal th locs merchs vr
            (config.risk_weights.getD RiskWeights.empty) amount loc merchant hist now) 100)
          reasons := allReasons th locs merchs vr
            (config.risk_weights.getD RiskWeights.empty) amount loc merchant hist now } := by
  unfold evaluateRisk checkVelocity uncappedTotal allReasons velocityPart
  rw [hth, hlocs, hmerchs, hvr]
  cases hht : historyTruthy hist <;> simp [hht]

/-- All weights, read with their per-lookup defaults, are non-negative. -/
def NonnegWeights (w : RiskWeights) : Prop :=
  0 ≤ w.amount_high.getD 50 ∧ 0 ≤ w.amount_medium.getD 30 ∧ 0 ≤ w.amount_low.getD 10 ∧
    0 ≤ w.location.getD 40 ∧ 0 ≤ w.merchant.getD 30 ∧
    0 ≤ w.velocity_count.getD 60 ∧ 0 ≤ w.velocity_amount.getD 50

theorem amountCheck_fst_nonneg (th : AmountThresholds) (w : RiskWeights) (amount : ℚ)
    (hw : NonnegWeights w) : 0 ≤ (amountCheck th w amount).1 := by
  obtain ⟨h1, h2, h3, -⟩ := hw
  unfold amountCheck
  split_ifs <;> simp_all

theorem locationCheck_fst_nonneg (locs : List String) (w : RiskWeights) (loc : String)
    (hw : NonnegWeights w) : 0 ≤ (locationCheck locs w loc).1 := by
  obtain ⟨-, -, -, h4, -⟩ := hw
  unfold locationCheck
  split_ifs <;> simp_all

theorem merchantCheck_fst_nonneg (merchs : List String) (w : RiskWeights) (m : String)
    (hw : NonnegWeights w) : 0 ≤ (merchantCheck merchs w m).1 := by
  obtain ⟨-, -, -, -, h5, -⟩ := hw
  unfold merchantCheck
  split_ifs <;> simp_all

theorem velocityChecks_fst_nonneg (rules : VelocityRules) (w : RiskWeights)
    (current_amount : ℚ) (history : List HistoryEntry) (now : Int)
    (hw : NonnegWeights w) : 0 ≤ (velocityChecks rules w current_amount history now).1 := by
  obtain ⟨-, -, -, -, -, h6, h7⟩ := hw
  unfold velocityChecks
  dsimp only
  split_ifs
  · simpa using add_nonneg h6 h7
  · simpa using h6
  · simpa using h7
  · simp

theorem velocityPart_fst_nonneg (vr : VelocityRules) (w : RiskWeights) (amount : ℚ)
    (hist : Option (List HistoryEntry)) (now : Int)
    (hw : NonnegWeights w) : 0 ≤ (velocityPart vr w amount hist now).1 := by
  unfold velocityPart
  split_ifs
  · exact velocityChecks_fst_nonneg _ _ _ _ _ hw
  · simp

theorem uncappedTotal_nonneg (th : AmountThresholds) (locs merchs : List String)
    (vr : VelocityRules) (w : RiskWeights) (amount : ℚ) (loc merchant : String)
    (hist : Option (List HistoryEntry)) (now : Int)
    (hw : NonnegWeights w) :
    0 ≤ uncappedTotal th locs merchs vr w amount loc merchant hist now := by
  unfold uncappedTotal
  have g1 := amountCheck_fst_nonneg th w amount hw
  have g2 := locationCheck_fst_nonneg locs w loc hw
  have g3 := merchantCheck_fst_nonneg merchs w merchant hw
  have g4 := velocityPart_fst_nonneg vr w amount hist now hw
  linarith

theorem riskLevelOf_cases (s : Int) :
    (80 ≤ s → riskLevelOf s = RiskLevel.CRITICAL) ∧
    (50 ≤ s → s < 80 → riskLevelOf s = RiskLevel.HIGH) ∧
    (20 ≤ s → s < 50 → riskLevelOf s = RiskLevel.MEDIUM) ∧
    (s < 20 → riskLevelOf s = RiskLevel.LOW) := by
  unfold riskLevelOf
  refine ⟨fun h => ?_, fun h h' => ?_, fun h h' => ?_, fun h => ?_⟩ <;>
    split_ifs <;> first | rfl | (exfalso; omega)

theorem velocityCount_not_in_amountCheck (th : AmountThresholds) (w : RiskWeights)
    (amount : ℚ) (n : Int) : Reason.velocityCount n ∉ (amountCheck th w amount).2 := by
  unfold amountCheck
  split_ifs <;> simp

theorem velocityAmount_not_in_amountCheck (th : AmountThresholds) (w : RiskWeights)
    (amount : ℚ) (q : ℚ) : Reason.velocityAmount q ∉ (amountCheck th w amount).2 := by
  unfold amountCheck
  split_ifs <;> simp

theorem velocityCount_not_in_locationCheck (locs : List String) (w : RiskWeights)
    (loc : String) (n : Int) : Reason.velocityCount n ∉ (locationCheck locs w loc).2 := by
  unfold locationCheck
  split_ifs <;> simp

theorem velocityAmount_not_in_locationCheck (locs : List String) (w : RiskWeights)
    (loc : String) (q : ℚ) : Reason.velocityAmount q ∉ (locationCheck locs w loc).2 := by
  unfold locationCheck
  split_ifs <;> simp

theorem velocityCount_not_in_merchantCheck (merchs : List String) (w : RiskWeights)
    (m : String) (n : Int) : Reason.velocityCount n ∉ (merchantCheck merchs w m).2 := by
  unfold merchantCheck
  split_ifs <;> simp

theorem velocityAmount_not_in_merchantCheck (merchs : List String) (w : RiskWeights)
    (m : String) (q : ℚ) : Reason.velocityAmount q ∉ (merchantCheck merchs w m).2 := by
  unfold merchantCheck
  split_ifs <;> simp

theorem velocityChecks_count_mem (rules : VelocityRules) (w : RiskWeights)
    (amt : ℚ) (hstr : List HistoryEntry) (now : Int) :
    Reason.velocityCount rules.max_transactions_per_hour ∈
        (velocityChecks rules w amt hstr now).2 ↔
      ((recentTxns now hstr).length : Int) ≥ rules.max_transactions_per_hour := by
  unfold velocityChecks
  dsimp only
  split_ifs <;> simp_all

theorem velocityChecks_amount_mem (rules : VelocityRules) (w : RiskWeights)
    (amt : ℚ) (hstr : List HistoryEntry) (now : Int) :
    Reason.velocityAmount rules.max_amount_per_hour ∈
        (velocityChecks rules w amt hstr now).2 ↔
      ((recentTxns now hstr).map HistoryEntry.amount).sum + amt > rules.max_amount_per_hour := by
  unfold velocityChecks
  dsimp only
  split_ifs <;> simp_all

/-- C3: for every amount, the amount-tier rule uses strict greater-than
comparisons, highest threshold first, and the tiers are mutually exclusive:
`amount ≤ low` adds no weight and no reason; `(low, medium]` adds exactly the
`amount_low` weight and reason; `(medium, high]` exactly `amount_medium`;
`(high, ∞)` exactly `amount_high`, never also the medium or low one. -/
theorem amount_tiers_exclusive (th : AmountThresholds) (w : RiskWeights) (amount : ℚ)
    (hlm : th.low < th.medium) (hmh : th.medium < th.high) :
    (amount ≤ th.low → amountCheck th w amount = (0, [])) ∧
    (th.low < amount → amount ≤ th.medium →
      amountCheck th w amount = (w.amount_low.getD 10, [Reason.amountGt th.low])) ∧
    (th.medium < amount → amount ≤ th.high →
      amountCheck th w amount = (w.amount_medium.getD 30, [Reason.amountGt th.medium])) ∧
    (th.high < amount →
      amountCheck th w amount = (w.amount_high.getD 50, [Reason.amountGt th.high])) := by
  unfold amountCheck
  refine ⟨fun h => ?_, fun h h' => ?_, fun h h' => ?_, fun h => ?_⟩ <;>
    split_ifs <;> first | rfl | (exfalso; linarith)

/-- Witness for C3: with the default thresholds, an amount of 3000 lands in
the low tier exactly. -/
theorem amount_tiers_exclusive_witness :
    amountCheck ⟨1000, 5000, 10000⟩ RiskWeights.empty 3000 =
      (10, [Reason.amountGt 1000]) :=
  (amount_tiers_exclusive ⟨1000, 5000, 10000⟩ RiskWeights.empty 3000
    (by decide) (by decide)).2.1 (by decide) (by decide)

/-- C5: the returned level is derived from the capped score by non-overlapping
thresholds checked highest first: `[80,100] ↦ CRITICAL`, `[50,79] ↦ HIGH`,
`[20,49] ↦ MEDIUM`, `[0,19] ↦ LOW`. -/
theorem risk_level_thresholds (config : RawConfig) (th : AmountThresholds)
    (locs merchs : List String) (vr : VelocityRules) (amount : ℚ) (loc merchant : String)
    (hist : Option (List HistoryEntry)) (now : Int)
    (hth : config.amount_thresholds = some th)
    (hlocs : config.high_risk_locations = some locs)
    (hmerchs : config.risky_merchants = some merchs)
    (hvr : config.velocity_rules = some vr) :
    ∃ a, evaluateRisk config amount loc merchant hist now = Except.ok a ∧
      (80 ≤ a.risk_score → a.risk_level = RiskLevel.CRITICAL) ∧
      (50 ≤ a.risk_score → a.risk_score < 80 → a.risk_level = RiskLevel.HIGH) ∧
      (20 ≤ a.risk_score → a.risk_score < 50 → a.risk_level = RiskLevel.MEDIUM) ∧
      (a.risk_score < 20 → a.risk_level = RiskLevel.LOW) := by
  refine ⟨_, evaluateRisk_ok config th locs merchs vr amount loc merchant hist now
    hth hlocs hmerchs hvr, ?_⟩
  exact riskLevelOf_cases _

/-- Witness for C5: a critical-score evaluation under the default config. -/
theorem risk_level_thresholds_witness :
    ∃ a, evaluateRisk defaultConfig 15000 "HighRiskCountry" "GamblingSite" none 0 =
        Except.ok a ∧
      (80 ≤ a.risk_score → a.risk_level = RiskLevel.CRITICAL) ∧
      (50 ≤ a.risk_score → a.risk_score < 80 → a.risk_level = RiskLevel.HIGH) ∧
      (20 ≤ a.risk_score → a.risk_score < 50 → a.risk_level = RiskLevel.MEDIUM) ∧
      (a.risk_score < 20 → a.risk_level = RiskLevel.LOW) :=
  risk_level_thresholds defaultConfig ⟨1000, 5000, 10000⟩ ["HighRiskCountry", "Unknown"]
    ["GamblingSite", "CryptoExchange"] ⟨3, 20000⟩ 15000 "HighRiskCountry" "GamblingSite"
    none 0 rfl rfl rfl rfl

/-- C8: evaluation is a pure deterministic function of its inputs, the config,
and the injected current time: two calls with identical arguments and the same
`now` return identical score, level, and reasons. -/
theorem evaluate_deterministic (config : RawConfig) (amount : ℚ) (loc merchant : String)
    (hist : Option (List HistoryEntry)) (now : Int) (a₁ a₂ : Assessment)
    (h₁ : evaluateRisk config amount loc merchant hist now = Except.ok a₁)
    (h₂ : evaluateRisk config amount loc merchant hist now = Except.ok a₂) :
    a₁.risk_score = a₂.risk_score ∧ a₁.risk_level = a₂.risk_level ∧
      a₁.reasons = a₂.reasons := by
  rw [h₁] at h₂
  cases h₂
  exact ⟨rfl, rfl, rfl⟩

/-- Witness for C8: two identical calls under the default config agree. -/
theorem evaluate_deterministic_witness :
    (Assessment.mk 0 RiskLevel.LOW []).risk_score =
        (Assessment.mk 0 RiskLevel.LOW []).risk_score ∧
      (Assessment.mk 0 RiskLevel.LOW []).risk_level =
        (Assessment.mk 0 RiskLevel.LOW []).risk_level ∧
      (Assessment.mk 0 RiskLevel.LOW []).reasons =
        (Assessment.mk 0 RiskLevel.LOW []).reasons :=
  evaluate_deterministic defaultConfig 500 "US" "Amazon" none 0
    (Assessment.mk 0 RiskLevel.LOW []) (Assessment.mk 0 RiskLevel.LOW []) rfl rfl

/-- C9: the velocity window is only bounded from below: an entry strictly after
`now - 1h` is recent even when its timestamp lies in the future, so it counts
toward both the velocity count and the velocity cumulative amount. -/
theorem future_entries_counted (e : HistoryEntry) (h : List HistoryEntry) (now : Int)
    (hfut : now < e.timestamp) :
    recentTxns now (e :: h) = e :: recentTxns now h ∧
      (recentTxns now (e :: h)).length = (recentTxns now h).length + 1 ∧
      ((recentTxns now (e :: h)).map HistoryEntry.amount).sum =
        e.amount + ((recentTxns now h).map HistoryEntry.amount).sum := by
  have hcons : recentTxns now (e :: h) = e :: recentTxns now h := by
    unfold recentTxns
    rw [List.filter_cons_of_pos]
    simpa using by omega
  refine ⟨hcons, ?_, ?_⟩ <;> simp [hcons]

/-- Witness for C9: an entry dated 50 seconds after `now` is counted. -/
theorem future_entries_counted_witness :
    recentTxns 0 [HistoryEntry.mk 100 50] = HistoryEntry.mk 100 50 :: recentTxns 0 [] ∧
      (recentTxns 0 [HistoryEntry.mk 100 50]).length = (recentTxns 0 []).length + 1 ∧
      ((recentTxns 0 [HistoryEntry.mk 100 50]).map HistoryEntry.amount).sum =
        (HistoryEntry.mk 100 50).amount + ((recentTxns 0 []).map HistoryEntry.amount).sum :=
  future_entries_counted (HistoryEntry.mk 100 50) [] 0 (by decide)

/-- C4: under non-negative configured weights, the returned score equals the
minimum of the running weight total and 100, so it lies in [0, 100] no matter
how many rules fire; capping affects only the number and the reasons are
exactly the uncapped rule reasons, in order. -/
theorem score_capped_bounds (config : RawConfig) (th : AmountThresholds)
    (locs merchs : List String) (vr : VelocityRules) (amount : ℚ) (loc merchant : String)
    (hist : Option (List HistoryEntry)) (now : Int)
    (hth : config.amount_thresholds = some th)
    (hlocs : config.high_risk_locations = some locs)
    (hmerchs : config.risky_merchants = some merchs)
    (hvr : config.velocity_rules = some vr)
    (hw : NonnegWeights (config.risk_weights.getD RiskWeights.empty)) :
    ∃ a, evaluateRisk config amount loc merchant hist now = Except.ok a ∧
      a.risk_score = min (uncappedTotal th locs merchs vr
        (config.risk_weights.getD RiskWeights.empty) amount loc merchant hist now) 100 ∧
      0 ≤ a.risk_score ∧ a.risk_score ≤ 100 ∧
      a.reasons = allReasons th locs merchs vr
        (config.risk_weights.getD RiskWeights.empty) amount loc merchant hist now := by
  refine ⟨_, evaluateRisk_ok config th locs merchs vr amount loc merchant hist now
    hth hlocs hmerchs hvr, rfl, ?_, ?_, rfl⟩
  · exact le_min (uncappedTotal_nonneg th locs merchs vr _ amount loc merchant hist now hw)
      (by norm_num)
  · exact min_le_right _ _

/-- Witness for C4: the default config has non-negative weights and a plain
low-risk call stays in bounds. -/
theorem score_capped_bounds_witness :
    ∃ a, evaluateRisk defaultConfig 500 "US" "Amazon" none 0 = Except.ok a ∧
      a.risk_score = min (uncappedTotal ⟨1000, 5000, 10000⟩ ["HighRiskCountry", "Unknown"]
        ["GamblingSite", "CryptoExchange"] ⟨3, 20000⟩
        (defaultConfig.risk_weights.getD RiskWeights.empty) 500 "US" "Amazon" none 0) 100 ∧
      0 ≤ a.risk_score ∧ a.risk_score ≤ 100 ∧
      a.reasons = allReasons ⟨1000, 5000, 10000⟩ ["HighRiskCountry", "Unknown"]
        ["GamblingSite", "CryptoExchange"] ⟨3, 20000⟩
        (defaultConfig.risk_weights.getD RiskWeights.empty) 500 "US" "Amazon" none 0 :=
  score_capped_bounds defaultConfig ⟨1000, 5000, 10000⟩ ["HighRiskCountry", "Unknown"]
    ["GamblingSite", "CryptoExchange"] ⟨3, 20000⟩ 500 "US" "Amazon" none 0
    rfl rfl rfl rfl (by unfold NonnegWeights; decide)

/-- C1 counterexample: under the default config, `25000 > maxAmountPerHour = 20000`,
yet `evaluate(25000, "US", "Amazon", history=[])` performs no velocity step:
the assessment carries no velocity weight and no velocity reason. -/
theorem empty_history_velocity_skipped_cex :
    (25000 : ℚ) > 20000 ∧
      evaluateRisk defaultConfig 25000 "US" "Amazon" (some []) 0 =
        Except.ok (Assessment.mk 50 RiskLevel.HIGH [Reason.amountGt 10000]) :=
  ⟨by norm_num, rfl⟩

/-- C1 amended: an empty supplied history is treated exactly like an absent
one — the velocity step is skipped for both, so `evaluate(amount, loc,
merchant, history=[])` adds no velocity weight or reason even when
`amount > maxAmountPerHour`. -/
theorem empty_history_like_absent (config : RawConfig) (amount : ℚ)
    (loc merchant : String) (now : Int) :
    evaluateRisk config amount loc merchant (some []) now =
      evaluateRisk config amount loc merchant none now := by
  obtain ⟨ls, ms, ths, vrs, ws⟩ := config
  cases ths <;> cases ls <;> cases ms <;> rfl

/-- C2 counterexample: the JSON document `{}` parses, lacks every required
threshold and rule field, yet construction succeeds and hands back the
unvalidated dict; the resulting engine then fails at its first evaluation
with a `KeyError` instead of having failed at construction time. -/
theorem invalid_config_accepted_cex :
    loadConfig (ConfigSource.parsed RawConfig.empty) = Except.ok RawConfig.empty ∧
      evaluateRisk RawConfig.empty 500 "US" "Amazon" none 0 =
        Except.error (EvalError.keyError "amount_thresholds") :=
  ⟨rfl, rfl⟩

/-- C2 amended: construction fails only when the present source is not
parseable JSON at all; a present source that parses but lacks required
threshold or rule fields is accepted verbatim at construction (no validation,
no default substitution), and an absent source falls back to the built-in
defaults. -/
theorem loadConfig_paths (c : RawConfig) :
    loadConfig (ConfigSource.parsed c) = Except.ok c ∧
      loadConfig ConfigSource.unparseable = Except.error ConfigError.jsonDecodeError ∧
      loadConfig ConfigSource.absent = Except.ok defaultConfig :=
  ⟨rfl, rfl, rfl⟩

/-- C6 counterexample: an entry exactly at the cutoff instant is excluded from
the recent filter, yet its presence makes the history list truthy and enables
the velocity step: with it the assessment gains the velocity-amount reason and
50 points relative to the same call without it. -/
theorem cutoff_entry_changes_assessment_cex :
    (HistoryEntry.mk 100 3600).timestamp ≤ 7200 - 3600 ∧
      evaluateRisk defaultConfig 25000 "UK" "Amazon"
          (some [HistoryEntry.mk 100 3600]) 7200 =
        Except.ok (Assessment.mk 100 RiskLevel.CRITICAL
          [Reason.amountGt 10000, Reason.velocityAmount 20000]) ∧
      evaluateRisk defaultConfig 25000 "UK" "Amazon" none 7200 =
        Except.ok (Assessment.mk 50 RiskLevel.HIGH [Reason.amountGt 10000]) := by
  refine ⟨by norm_num, ?_, by rfl⟩
  norm_num [evaluateRisk, defaultConfig, amountCheck, locationCheck, merchantCheck,
    checkVelocity, velocityChecks, recentTxns, historyTruthy, riskLevelOf,
    RiskWeights.empty]
  decide

/-- C6 amended: an entry with `timestamp ≤ now - 1h` (the cutoff instant
included) is excluded from the recent filter, contributes nothing to the
velocity count, cumulative amount, velocity risk or velocity reasons, and —
whenever the remaining supplied history is non-empty — leaves the whole
assessment unchanged; its only possible effect is making an otherwise-empty
history non-empty, which enables the velocity step. -/
theorem stale_entries_filtered (e : HistoryEntry) (h : List HistoryEntry) (now : Int)
    (hstale : e.timestamp ≤ now - 3600) :
    recentTxns now (e :: h) = recentTxns now h ∧
      (∀ config current_amount,
        checkVelocity config current_amount (e :: h) now =
          checkVelocity config current_amount h now) ∧
      (h ≠ [] → ∀ config amount loc merchant,
        evaluateRisk config amount loc merchant (some (e :: h)) now =
          evaluateRisk config amount loc merchant (some h) now) := by
  have hfilter : recentTxns now (e :: h) = recentTxns now h := by
    unfold recentTxns
    rw [List.filter_cons_of_neg]
    simpa using by omega
  have hvel : ∀ config current_amount,
      checkVelocity config current_amount (e :: h) now =
        checkVelocity config current_amount h now := by
    intro config current_amount
    unfold checkVelocity velocityChecks
    rw [hfilter]
  refine ⟨hfilter, hvel, fun hne config amount loc merchant => ?_⟩
  cases h with
  | nil => exact absurd rfl hne
  | cons x xs =>
      unfold evaluateRisk
      rw [show historyTruthy (some (e :: x :: xs)) = true from rfl,
        show historyTruthy (some (x :: xs)) = true from rfl]
      simp only [Option.getD_some]
      rw [hvel config amount]

/-- Witness for C6: a stale entry in front of a fresh one changes neither the
recent filter, nor the velocity result, nor the full assessment. -/
theorem stale_entries_filtered_witness :
    recentTxns 7200 [HistoryEntry.mk 5000 0, HistoryEntry.mk 100 7000] =
        recentTxns 7200 [HistoryEntry.mk 100 7000] ∧
      checkVelocity defaultConfig 100 [HistoryEntry.mk 5000 0, HistoryEntry.mk 100 7000] 7200 =
        checkVelocity defaultConfig 100 [HistoryEntry.mk 100 7000] 7200 ∧
      evaluateRisk defaultConfig 100 "US" "Amazon"
          (some [HistoryEntry.mk 5000 0, HistoryEntry.mk 100 7000]) 7200 =
        evaluateRisk defaultConfig 100 "US" "Amazon"
          (some [HistoryEntry.mk 100 7000]) 7200 :=
  have base := stale_entries_filtered (HistoryEntry.mk 5000 0)
    [HistoryEntry.mk 100 7000] 7200 (by decide)
  ⟨base.1, base.2.1 defaultConfig 100,
    base.2.2 (by decide) defaultConfig 100 "US" "Amazon"⟩

/-- C7 counterexample: with an empty history supplied, the cumulative-amount
condition `0 + 21000 > 20000` holds but no velocity reason is produced and no
velocity weight is added. -/
theorem velocity_checks_empty_history_cex :
    (21000 : ℚ) > 20000 ∧
      evaluateRisk defaultConfig 21000 "UK" "BestBuy" (some []) 0 =
        Except.ok (Assessment.mk 50 RiskLevel.HIGH [Reason.amountGt 10000]) :=
  ⟨by norm_num, rfl⟩

/-- C7 amended: for every evaluation with a non-empty history supplied, the
velocity count check fires exactly when the number of recent entries (the
current transaction not counted) reaches maxTransactionsPerHour, and the
velocity amount check fires exactly when the recent amounts plus the current
amount strictly exceed maxAmountPerHour; the two checks are independent. -/
theorem velocity_checks_fire_iff (config : RawConfig) (th : AmountThresholds)
    (locs merchs : List String) (vr : VelocityRules) (amount : ℚ) (loc merchant : String)
    (h : List HistoryEntry) (now : Int)
    (hth : config.amount_thresholds = some th)
    (hlocs : config.high_risk_locations = some locs)
    (hmerchs : config.risky_merchants = some merchs)
    (hvr : config.velocity_rules = some vr)
    (hne : h ≠ []) :
    ∃ a, evaluateRisk config amount loc merchant (some h) now = Except.ok a ∧
      (Reason.velocityCount vr.max_transactions_per_hour ∈ a.reasons ↔
        ((recentTxns now h).length : Int) ≥ vr.max_transactions_per_hour) ∧
      (Reason.velocityAmount vr.max_amount_per_hour ∈ a.reasons ↔
        ((recentTxns now h).map HistoryEntry.amount).sum + amount >
          vr.max_amount_per_hour) := by
  refine ⟨_, evaluateRisk_ok config th locs merchs vr amount loc merchant (some h) now
    hth hlocs hmerchs hvr, ?_, ?_⟩ <;>
    have hT : historyTruthy (some h) = true := by
      cases h with
      | nil => exact absurd rfl hne
      | cons x xs => rfl
  · simp [allReasons, velocityPart, hT, velocityCount_not_in_amountCheck,
      velocityCount_not_in_locationCheck, velocityCount_not_in_merchantCheck,
      velocityChecks_count_mem]
  · simp [allReasons, velocityPart, hT, velocityAmount_not_in_amountCheck,
      velocityAmount_not_in_locationCheck, velocityAmount_not_in_merchantCheck,
      velocityChecks_amount_mem]

/-- Witness for C7: one fresh small entry under the default config: neither
velocity check fires, matching the two conditions. -/
theorem velocity_checks_fire_iff_witness :
    ∃ a, evaluateRisk defaultConfig 100 "US" "Amazon"
        (some [HistoryEntry.mk 100 (-60)]) 0 = Except.ok a ∧
      (Reason.velocityCount (VelocityRules.mk 3 20000).max_transactions_per_hour ∈
          a.reasons ↔
        ((recentTxns 0 [HistoryEntry.mk 100 (-60)]).length : Int) ≥
          (VelocityRules.mk 3 20000).max_transactions_per_hour) ∧
      (Reason.velocityAmount (VelocityRules.mk 3 20000).max_amount_per_hour ∈
          a.reasons ↔
        ((recentTxns 0 [HistoryEntry.mk 100 (-60)]).map HistoryEntry.amount).sum + 100 >
          (VelocityRules.mk 3 20000).max_amount_per_hour) :=
  velocity_checks_fire_iff defaultConfig ⟨1000, 5000, 10000⟩
    ["HighRiskCountry", "Unknown"] ["GamblingSite", "CryptoExchange"]
    (VelocityRules.mk 3 20000) 100 "US" "Amazon" [HistoryEntry.mk 100 (-60)] 0
    rfl rfl rfl rfl (by decide)

/-- C10: a non-positive amount is scored normally under sane thresholds
(`0 ≤ low ≤ medium ≤ high`): evaluation succeeds, the amount tier adds no
weight and no reason, and the location, merchant and velocity rules are still
evaluated as usual. -/
theorem nonpositive_amount_scored (config : RawConfig) (th : AmountThresholds)
    (locs merchs : List String) (vr : VelocityRules) (amount : ℚ) (loc merchant : String)
    (hist : Option (List HistoryEntry)) (now : Int)
    (hth : config.amount_thresholds = some th)
    (hlocs : config.high_risk_locations = some locs)
    (hmerchs : config.risky_merchants = some merchs)
    (hvr : config.velocity_rules = some vr)
    (hlow : 0 ≤ th.low) (hlm : th.low ≤ th.medium) (hmh : th.medium ≤ th.high)
    (hamt : amount ≤ 0) :
    amountCheck th (config.risk_weights.getD RiskWeights.empty) amount = (0, []) ∧
      ∃ a, evaluateRisk config amount loc merchant hist now = Except.ok a ∧
        a.risk_score = min
          ((locationCheck locs (config.risk_weights.getD RiskWeights.empty) loc).1 +
            (merchantCheck merchs (config.risk_weights.getD RiskWeights.empty) merchant).1 +
            (velocityPart vr (config.risk_weights.getD RiskWeights.empty)
              amount hist now).1) 100 ∧
        a.reasons =
          (locationCheck locs (config.risk_weights.getD RiskWeights.empty) loc).2 ++
            (merchantCheck merchs (config.risk_weights.getD RiskWeights.empty) merchant).2 ++
            (velocityPart vr (config.risk_weights.getD RiskWeights.empty)
              amount hist now).2 := by
  have hac : amountCheck th (config.risk_weights.getD RiskWeights.empty) amount = (0, []) := by
    unfold amountCheck
    split_ifs <;> first | rfl | (exfalso; linarith)
  refine ⟨hac, _, evaluateRisk_ok config th locs merchs vr amount loc merchant hist now
    hth hlocs hmerchs hvr, ?_, ?_⟩
  · simp [uncappedTotal, hac]
  · simp [allReasons, hac]

/-- Witness for C10: a negative amount under the default config with an
absent history. -/
theorem nonpositive_amount_scored_witness :
    amountCheck ⟨1000, 5000, 10000⟩ (defaultConfig.risk_weights.getD RiskWeights.empty)
        (-5) = (0, []) ∧
      ∃ a, evaluateRisk defaultConfig (-5) "HighRiskCountry" "Amazon" none 0 =
          Except.ok a ∧
        a.risk_score = min
          ((locationCheck ["HighRiskCountry", "Unknown"]
              (defaultConfig.risk_weights.getD RiskWeights.empty) "HighRiskCountry").1 +
            (merchantCheck ["GamblingSite", "CryptoExchange"]
              (defaultConfig.risk_weights.getD RiskWeights.empty) "Amazon").1 +
            (velocityPart ⟨3, 20000⟩ (defaultConfig.risk_weights.getD RiskWeights.empty)
              (-5) none 0).1) 100 ∧
        a.reasons =
          (locationCheck ["HighRiskCountry", "Unknown"]
              (defaultConfig.risk_weights.getD RiskWeights.empty) "HighRiskCountry").2 ++
            (merchantCheck ["GamblingSite", "CryptoExchange"]
              (defaultConfig.risk_weights.getD RiskWeights.empty) "Amazon").2 ++
            (velocityPart ⟨3, 20000⟩ (defaultConfig.risk_weights.getD RiskWeights.empty)
              (-5) none 0).2 :=
  nonpositive_amount_scored defaultConfig ⟨1000, 5000, 10000⟩
    ["HighRiskCountry", "Unknown"] ["GamblingSite", "CryptoExchange"] ⟨3, 20000⟩
    (-5) "HighRiskCountry" "Amazon" none 0 rfl rfl rfl rfl
    (by decide) (by decide) (by decide) (by decide)

end SentinelStream
